import Mathlib

/-!
Shallow embedding of the shuimu_crawler repository (a bounded-concurrency,
resumable forum crawler) and proofs checking its specification claims.

The embedding covers:
* `src/state.py`   — post lifecycle records and the `StateManager` operations;
* `src/storage.py` — `StorageManager.save_to_file` (placeholder substitution
  and the on-disk write), shared with `ShuimuCrawler.save_to_file` in the
  top-level `crawler.py`, whose logic is identical;
* `src/crawler.py` — `Crawler._fetch_page`, `Crawler.crawl_board` and the
  network-call structure of `Crawler._save_post`;
* top-level `crawler.py` — `ShuimuCrawler.download_image`.

External effects (the filesystem, the network, the clock, stdlib helpers
such as `urllib.parse.urljoin`) are passed in as explicit parameters so the
Python control flow can be modelled as pure functions.
-/

namespace Shuimu

/-- Python truthiness of an `Optional[str]`: `None` and `""` are falsy. -/
def pyTruthyStr : Option String → Bool
  | none => false
  | some s => s != ""

/-- Python truthiness of an `Optional[int]`: `None` and `0` are falsy. -/
def pyTruthyNat : Option Nat → Bool
  | none => false
  | some n => n != 0

/-! ### String primitives

The Python string operations the source relies on (`str.replace`,
`str.startswith`, `os.path.basename`, `in`), re-implemented by structural
recursion over the character list so that they evaluate on concrete
inputs. -/

/-- Does the first character list start with the second? -/
def listStartsWith : List Char → List Char → Bool
  | _, [] => true
  | [], _ :: _ => false
  | a :: as, b :: bs => a == b && listStartsWith as bs

/-- `str.startswith(pre)`. -/
def pyStartsWith (s pre : String) : Bool :=
  listStartsWith s.toList pre.toList

/-- Leftmost, non-overlapping replacement of a non-empty pattern, fuelled
by the input length so the recursion is structural. -/
def replaceFrom (pat rep : List Char) : Nat → List Char → List Char
  | 0, s => s
  | _, [] => []
  | fuel + 1, c :: rest =>
    if listStartsWith (c :: rest) pat then
      rep ++ replaceFrom pat rep fuel (List.drop (pat.length - 1) rest)
    else
      c :: replaceFrom pat rep fuel rest

/-- `str.replace(pat, rep)` for the non-empty patterns this code builds:
replace every non-overlapping occurrence, left to right. -/
def pyReplace (s pat rep : String) : String :=
  if pat.toList.isEmpty then s
  else String.mk (replaceFrom pat.toList rep.toList (s.toList.length + 1) s.toList)

/-- `c in s` for a single character. -/
def pyContainsChar (s : String) (c : Char) : Bool :=
  s.toList.contains c

/-! ## `src/state.py`: the post lifecycle data model -/

/-- The `PostState` enum of `src/state.py` (lines 11-17):
`PENDING / DOWNLOADING / COMPLETED / FAILED / RETRY`. -/
inductive PostState where
  | pending
  | downloading
  | completed
  | failed
  | retryNeeded
  deriving DecidableEq, Repr

/-- The `PostInfo` dataclass of `src/state.py` (lines 19-29). -/
structure PostInfo where
  url : String
  title : String
  state : PostState
  retry_count : Nat
  last_attempt : Option String
  error_message : Option String
  downloaded_images : List String
  failed_images : List String
  deriving DecidableEq, Repr

/-- The `BoardState` dataclass of `src/state.py` (lines 31-36).  The Python
`dict` of posts is modelled as an association list preserving insertion
order, as CPython dicts do. -/
structure BoardState where
  name : String
  last_page : Nat
  posts : List (String × PostInfo)
  deriving DecidableEq, Repr

/-- Dictionary indexing / the `post_id in board_state.posts` membership
test: the value at the first occurrence of the key. -/
def lookupPost : List (String × PostInfo) → String → Option PostInfo
  | [], _ => none
  | (k, v) :: rest, key => if k = key then some v else lookupPost rest key

/-- Assignment `board_state.posts[post_id] = v` for a key that is present:
replaces the value at the first occurrence of the key, keeping order. -/
def setPost : List (String × PostInfo) → String → PostInfo → List (String × PostInfo)
  | [], _, _ => []
  | (k, v) :: rest, key, newV =>
    if k = key then (k, newV) :: rest else (k, v) :: setPost rest key newV

/-- The eligibility test that lines 150-164 of `src/state.py` spell out
when the name `PostState` is read as the enum of line 11: eligible iff the
record is absent, or its state is not `COMPLETED` and, when the state is
`FAILED` or `RETRY`, the retry count is below the budget. -/
def should_process_post_as_written (board_state : BoardState) (post_id : String)
    (max_retries : Nat) : Bool :=
  match lookupPost board_state.posts post_id with
  | none => true
  | some post =>
    if post.state = PostState.completed then false
    else if post.state = PostState.failed ∨ post.state = PostState.retryNeeded then
      decide (post.retry_count < max_retries)
    else true

/-- `StateManager.should_process_post` (`src/state.py` lines 150-164) as it
executes, on a board state already obtained via `get_board_state`.  The
early return for an absent record (lines 154-155) completes and yields
`True`, but for a present record the comparison at line 158 evaluates
`PostState.COMPLETED` against the module-global `PostState`, which the
dataclass definition at line 39 has rebound (shadowing the enum of
line 11) and which has no such attribute — so the method raises
`AttributeError` for every post identifier that has a record. -/
def should_process_post (board_state : BoardState) (post_id : String)
    (max_retries : Nat) : Except String Bool :=
  match lookupPost board_state.posts post_id with
  | none => .ok true
  | some _ => .error "AttributeError"

/-- The record mutation performed by `update_post_state` on an existing
post (`src/state.py` lines 135-140): set the new state, stamp the
attempt time, and when the error argument is truthy record it and bump
the retry count. -/
def updatedPost (post : PostInfo) (state : PostState) (error : Option String)
    (now : String) : PostInfo :=
  let post1 := { post with state := state, last_attempt := some now }
  if pyTruthyStr error then
    { post1 with error_message := error, retry_count := post1.retry_count + 1 }
  else post1

/-- `StateManager.update_post_state` (`src/state.py` lines 130-141).  The
wall clock is passed in as `now`.  The returned `Bool` records whether
`save_board_state` was invoked (i.e. whether the persisted file was
rewritten). -/
def update_post_state (board_state : BoardState) (post_id : String)
    (state : PostState) (error : Option String) (now : String) :
    BoardState × Bool :=
  match lookupPost board_state.posts post_id with
  | none => (board_state, false)
  | some post =>
    ({ board_state with
        posts := setPost board_state.posts post_id (updatedPost post state error now) },
      true)

/-- `StateManager.add_downloaded_image` (`src/state.py` lines 166-174).  The
returned `Bool` records whether `save_board_state` was invoked. -/
def add_downloaded_image (board_state : BoardState) (post_id : String)
    (image_path : String) : BoardState × Bool :=
  match lookupPost board_state.posts post_id with
  | none => (board_state, false)
  | some post =>
    if post.downloaded_images.contains image_path then (board_state, false)
    else
      ({ board_state with
          posts := setPost board_state.posts post_id
            { post with downloaded_images := post.downloaded_images ++ [image_path] } },
        true)

/-- `StateManager.add_failed_image` (`src/state.py` lines 176-184).  The
returned `Bool` records whether `save_board_state` was invoked. -/
def add_failed_image (board_state : BoardState) (post_id : String)
    (image_url : String) : BoardState × Bool :=
  match lookupPost board_state.posts post_id with
  | none => (board_state, false)
  | some post =>
    if post.failed_images.contains image_url then (board_state, false)
    else
      ({ board_state with
          posts := setPost board_state.posts post_id
            { post with failed_images := post.failed_images ++ [image_url] } },
        true)

/-- One mutating call on the state store, as issued by a caller. -/
inductive StoreOp where
  | update (post_id : String) (state : PostState) (error : Option String) (now : String)
  | addImage (post_id : String) (image_path : String)
  | addFailed (post_id : String) (image_url : String)
  deriving DecidableEq, Repr

/-- Effect of one store operation on the in-memory board state. -/
def applyOp (board_state : BoardState) : StoreOp → BoardState
  | .update pid st err now => (update_post_state board_state pid st err now).1
  | .addImage pid p => (add_downloaded_image board_state pid p).1
  | .addFailed pid u => (add_failed_image board_state pid u).1

/-- Effect of a sequence of store operations. -/
def applyOps (board_state : BoardState) (ops : List StoreOp) : BoardState :=
  ops.foldl applyOp board_state

/-- The `retry_count` recorded for `post_id`, or `0` when no record exists. -/
def retryCountOf (board_state : BoardState) (post_id : String) : Nat :=
  match lookupPost board_state.posts post_id with
  | none => 0
  | some post => post.retry_count

/-! ## `src/state.py`: persistence (`load_board_state`) -/

/-- A post entry as it appears in a parsed state-file JSON object
(`src/state.py` lines 88-98): the `state` field is still the raw string. -/
structure PostJson where
  url : String
  title : String
  state : String
  retry_count : Nat
  last_attempt : Option String
  error_message : Option String
  downloaded_images : List String
  failed_images : List String
  deriving DecidableEq, Repr

/-- The condition of a board's persisted state file, as seen by
`load_board_state`: absent, present but not valid JSON (so `json.load`
raises `JSONDecodeError`), or present and parsed into its fields. -/
inductive StateFile where
  | missing
  | corrupt (raw : String)
  | parsed (last_page : Nat) (posts : List (String × PostJson))
  deriving DecidableEq, Repr

/-- The per-post conversion loop of `load_board_state` (`src/state.py`
lines 88-98) as it executes: constructing each record evaluates
`PostState(post_data['state'])` at line 92, and the module-global
`PostState` there is the dataclass of line 39 (shadowing the enum of
line 11), whose constructor requires a second `title` argument — so the
call raises `TypeError` for every post entry, and only a state file whose
`posts` object is empty converts. -/
def convertPosts : List (String × PostJson) → Except String (List (String × PostInfo))
  | [] => .ok []
  | _ :: _ => .error "TypeError"

/-- `StateManager.load_board_state` (`src/state.py` lines 79-100).  The
body has no exception handler, so a `json.load` failure on a corrupt file
propagates to the caller; a missing file yields a fresh empty state
(line 100). -/
def load_board_state (board_name : String) (file : StateFile) :
    Except String BoardState :=
  match file with
  | .missing => .ok { name := board_name, last_page := 1, posts := [] }
  | .corrupt _ => .error "JSONDecodeError"
  | .parsed last_page posts =>
    match convertPosts posts with
    | .error e => .error e
    | .ok converted => .ok { name := board_name, last_page := last_page, posts := converted }

/-- The state-loading loop of `Crawler.__init__` (`src/crawler.py` lines
46-48): each board's state is loaded in order with no exception handler,
so the first raising load aborts the constructor and no later board is
loaded. -/
def crawler_init_load (boards : List String) (files : String → StateFile) :
    Except String Unit :=
  match boards with
  | [] => .ok ()
  | b :: rest =>
    match load_board_state b (files b) with
    | .error e => .error e
    | .ok _ => crawler_init_load rest files

/-! ## `src/utils.py` and `src/storage.py`: the document writer -/

/-- Characters `re.sub` replaces in `get_safe_filename` (`src/utils.py`):
the class `[<>:"/\|?*]`. -/
def unsafeChars : List Char := ['<', '>', ':', '"', '/', '\\', '|', '?', '*']

/-- `get_safe_filename` from `src/utils.py`: replace unsafe characters
with `_`, strip leading/trailing `.` and spaces, default to `untitled`. -/
def get_safe_filename (filename : String) : String :=
  let replaced := String.mk (filename.toList.map fun c =>
    if unsafeChars.contains c then '_' else c)
  let stripSet : List Char := ['.', ' ']
  let stripped := String.mk
    (((replaced.toList.dropWhile (stripSet.contains ·)).reverse.dropWhile
      (stripSet.contains ·)).reverse)
  if stripped = "" then "untitled" else stripped

/-- Primitive filesystem operations performed by the save path.
`openTrunc` is `open(path, "w")` / `Path.write_text`'s truncating open;
`write` appends the data to the (already truncated) file. -/
inductive FsOp where
  | openTrunc (path : String)
  | write (path : String) (data : String)
  | rename (src : String) (dst : String)
  deriving DecidableEq, Repr

/-- Effect of one filesystem operation on a filesystem modelled as a map
from path to current contents. -/
def applyFsOp (fs : String → Option String) : FsOp → (String → Option String)
  | .openTrunc p => fun q => if q = p then some "" else fs q
  | .write p d => fun q => if q = p then some ((fs p).getD "" ++ d) else fs q
  | .rename src dst => fun q =>
      if q = dst then fs src else if q = src then none else fs q

/-- All filesystem states observable while an operation list runs: the
initial state and the state after each prefix. -/
def fsStates (fs : String → Option String) : List FsOp → List (String → Option String)
  | [] => [fs]
  | op :: rest => fs :: fsStates (applyFsOp fs op) rest

/-- The placeholder-substitution loop of `save_to_file`
(`src/storage.py` lines 124-130, identical to `crawler.py` lines
399-406): for `i, image_path in enumerate(valid_image_paths)`, replace
every occurrence of `__IMG_PLACEHOLDER_{i}__` by a Markdown image for
`image_path`, numbering the label `i+1`. -/
def replacePlaceholders (content : String) : Nat → List String → String
  | _, [] => content
  | i, image_path :: rest =>
    let placeholder := "__IMG_PLACEHOLDER_" ++ toString i ++ "__"
    let markdown_image := "\n![图片" ++ toString (i + 1) ++ "](" ++ image_path ++ ")\n"
    replacePlaceholders (pyReplace content placeholder markdown_image) (i + 1) rest

/-- Result of `save_to_file`: the target filename (relative to the base
directory), the assembled Markdown, and the filesystem operations
performed to store it. -/
structure SaveResult where
  filename : String
  markdown : String
  ops : List FsOp
  deriving DecidableEq, Repr

/-- `StorageManager.save_to_file` (`src/storage.py` lines 107-145;
`ShuimuCrawler.save_to_file` in `crawler.py` lines 382-429 is the same
logic).  `fileExists p` stands for `(base_dir / p).exists()`.  The write
is a direct truncating open of the final filename followed by one write —
the `asyncio.Lock()` constructed inline guards nothing and no temporary
file or rename is involved. -/
def save_to_file (fileExists : String → Bool) (title : String) (content : String)
    (image_paths : List String) : SaveResult :=
  let safe_title := get_safe_filename title
  let filename := safe_title ++ ".md"
  let valid_image_paths := image_paths.filter fun p => p != "" && fileExists p
  let processed_content := replacePlaceholders content 0 valid_image_paths
  let markdown_content := "# " ++ title ++ "\n\n" ++ processed_content
  { filename := filename, markdown := markdown_content,
    ops := [FsOp.openTrunc filename, FsOp.write filename markdown_content] }

/-- The glue in `ShuimuCrawler.process_post` (`crawler.py` line 448):
`image_paths = [path for path in image_paths if path]` filters the results
of the per-URL downloads (`None` for a failed download) before
`save_to_file` is called. -/
def filterDownloaded (results : List (Option String)) : List String :=
  (results.filterMap id).filter (· != "")

/-! ## `src/crawler.py`: `Crawler.crawl_board` (lines 165-240) -/

/-- A listing row as produced by `_parse_list_page`. -/
structure PostSummary where
  title : String
  url : String
  deriving DecidableEq, Repr

/-- The limits of a `BoardConfig` (`src/config.py`): `max_pages` and
`max_posts` are `Optional[int]`, tested with Python truthiness. -/
structure BoardLimits where
  max_pages : Option Nat
  max_posts : Option Nat
  deriving DecidableEq, Repr

/-- The environment `crawl_board` runs against.  `fetch` is
`_fetch_page` for the page-`n` listing URL (`None` on failure); `parse`
is `_parse_list_page`; `extractId` is `_extract_post_id` (returns `""`
when no id can be extracted).  `isCompleted` is the skip test at
`src/crawler.py` lines 216-219; `StateManager` declares no
`get_post_state`, so this check is modelled from the spec: the
orchestrator consults the state store and skips a post exactly when its
recorded state is `Completed`. -/
structure CrawlEnv where
  fetch : Nat → Option String
  parse : String → List PostSummary
  extractId : String → String
  isCompleted : String → Bool

/-- `if board.max_pages and page > board.max_pages` (line 176). -/
def maxPagesExceeded (limits : BoardLimits) (page : Nat) : Bool :=
  pyTruthyNat limits.max_pages && (limits.max_pages.getD 0 < page)

/-- `if board.max_posts and count >= board.max_posts` (lines 181, 206). -/
def maxPostsReached (limits : BoardLimits) (count : Nat) : Bool :=
  pyTruthyNat limits.max_posts && (limits.max_posts.getD 0 ≤ count)

/-- Fetch-and-parse of one listing page (lines 188-194): `None` when
`_fetch_page` failed or returned a falsy (empty) page, otherwise the
parsed rows. -/
def listingOf (env : CrawlEnv) (page : Nat) : Option (List PostSummary) :=
  match env.fetch page with
  | none => none
  | some html => if html = "" then none else some (env.parse html)

/-- The per-post dispatch loop (lines 203-226).  Returns the number of
tasks created for the page and the updated board post count. -/
def dispatchPosts (env : CrawlEnv) (limits : BoardLimits) :
    List PostSummary → Nat → Nat × Nat
  | [], count => (0, count)
  | post :: rest, count =>
    if maxPostsReached limits count then (0, count)
    else
      let post_id := env.extractId post.url
      if post_id = "" then dispatchPosts env limits rest count
      else if env.isCompleted post_id then dispatchPosts env limits rest count
      else
        let (tasks, count2) := dispatchPosts env limits rest (count + 1)
        (tasks + 1, count2)

/-- Why the `while True` loop of `crawl_board` stops. -/
inductive StopReason where
  | maxPages
  | maxPosts
  | fetchFailed
  | noPosts
  | noNewTasks
  deriving DecidableEq, Repr

/-- Result of one iteration of the `while True` body. -/
inductive StepRes where
  | stop (r : StopReason)
  | next (count : Nat)
  deriving DecidableEq, Repr

/-- One iteration of the `crawl_board` loop body (lines 174-240), with the
checks in source order: max-pages (line 176), max-posts (line 181), fetch
failure (line 189), empty listing (line 196), the dispatch loop, and
`if not tasks: break` (line 233). -/
def crawl_board_step (env : CrawlEnv) (limits : BoardLimits) (page count : Nat) :
    StepRes :=
  if maxPagesExceeded limits page then .stop .maxPages
  else if maxPostsReached limits count then .stop .maxPosts
  else
    match listingOf env page with
    | none => .stop .fetchFailed
    | some [] => .stop .noPosts
    | some (post :: rest) =>
      let tc := dispatchPosts env limits (post :: rest) count
      if tc.1 = 0 then .stop .noNewTasks else .next tc.2

/-- The `crawl_board` loop, fuelled: `none` means the fuel ran out before
the loop stopped. -/
def crawl_board : CrawlEnv → BoardLimits → Nat → Nat → Nat → Option StopReason
  | _, _, 0, _, _ => none
  | env, limits, fuel + 1, page, count =>
    match crawl_board_step env limits page count with
    | .stop r => some r
    | .next c => crawl_board env limits fuel (page + 1) c

/-- `crawl_board` started as the source starts it: `page = 1` (line 172)
and a fresh `board_posts` counter of `0` (crawler `__init__`, line 33). -/
def crawl_board_run (env : CrawlEnv) (limits : BoardLimits) (fuel : Nat) :
    Option StopReason :=
  crawl_board env limits fuel 1 0

/-! ## `src/crawler.py`: `Crawler._fetch_page` (lines 109-163) -/

/-- What one attempt's `session.get` yields: a response with a status and
raw body bytes, a timeout (`asyncio.TimeoutError`), or some other
exception (connection failure etc., the generic `except Exception`). -/
inductive AttemptOutcome where
  | response (status : Nat) (body : List Nat)
  | timeoutErr
  | connError
  deriving DecidableEq, Repr

/-- Environment for `_fetch_page`: the per-attempt network outcome and the
decoding oracles.  `decode enc body` is `body.decode(enc)` (`none` when it
raises `UnicodeDecodeError`); `chardetect` is the `chardet.detect`
encoding guess (`none` when chardet is unavailable or detects nothing);
`lenient` is `body.decode("utf-8", errors="ignore")`, which is total. -/
structure FetchEnv where
  outcome : Nat → AttemptOutcome
  decode : String → List Nat → Option String
  chardetect : List Nat → Option String
  lenient : List Nat → String

/-- The hard-coded encoding cascade (`src/crawler.py` line 132). -/
def encodingCascade : List String := ["utf-8", "gbk", "gb2312", "gb18030", "big5"]

/-- The `for encoding in encodings` loop (lines 133-137). -/
def tryEncodings (env : FetchEnv) (body : List Nat) : List String → Option String
  | [] => none
  | enc :: rest =>
    match env.decode enc body with
    | some s => some s
    | none => tryEncodings env body rest

/-- The whole decode path for a 200 response (lines 128-151): the encoding
cascade, then the chardet guess (its failure is swallowed by the
`except Exception`), then the lenient decode.  Total: a 200 response
always decodes to some string. -/
def decodeContent (env : FetchEnv) (body : List Nat) : String :=
  match tryEncodings env body encodingCascade with
  | some s => s
  | none =>
    match env.chardetect body with
    | some enc =>
      match env.decode enc body with
      | some s => s
      | none => env.lenient body
    | none => env.lenient body

/-- Events emitted by `_fetch_page`, in order: semaphore acquisition and
release (`async with self.semaphore`, line 120), the network request of
attempt `i` (line 121), and the fixed inter-attempt delay
(`asyncio.sleep(retry_delay)`, line 161). -/
inductive FetchEvent where
  | acquire
  | release
  | request (attempt : Nat)
  | sleepDelay
  deriving DecidableEq, Repr

/-- Does this attempt fall through to a retry?  Exactly when the status is
not 200 (line 127) or an exception was raised. -/
def attemptFails : AttemptOutcome → Bool
  | .response status _ => status != 200
  | .timeoutErr => true
  | .connError => true

/-- Body of a 200 response (placeholder for the failure outcomes). -/
def bodyOf : AttemptOutcome → List Nat
  | .response _ body => body
  | _ => []

/-- The `for attempt in range(max_retries)` loop of `_fetch_page`, run
over the remaining attempt indices.  Each attempt acquires the semaphore,
issues the request, and releases the semaphore when the `async with`
block exits (on return, fall-through or exception); the delay sleeps only
between attempts (`if attempt < max_retries - 1`, line 160), after the
slot is released. -/
def fetch_attempts (env : FetchEnv) : List Nat → Option String × List FetchEvent
  | [] => (none, [])
  | i :: rest =>
    let pre : List FetchEvent := [.acquire, .request i, .release]
    if attemptFails (env.outcome i) then
      let tail : List FetchEvent := if rest.isEmpty then [] else [.sleepDelay]
      let r := fetch_attempts env rest
      (r.1, pre ++ tail ++ r.2)
    else
      (some (decodeContent env (bodyOf (env.outcome i))), pre)

/-- `Crawler._fetch_page` (lines 109-163): the decoded page on the first
attempt whose response has status 200, `None` after `max_retries` spent
attempts, together with the event trace. -/
def fetch_page (env : FetchEnv) (max_retries : Nat) : Option String × List FetchEvent :=
  fetch_attempts env (List.range max_retries)

/-- Semaphore/network discipline of an event trace, scanning with the
number of held slots: every request happens while a slot is held, every
release matches an acquisition, every delay happens while no slot is
held, and no slot is still held at the end. -/
def semOkAux : List FetchEvent → Nat → Bool
  | [], held => held == 0
  | e :: rest, held =>
    match e with
    | .acquire => semOkAux rest (held + 1)
    | .release => held != 0 && semOkAux rest (held - 1)
    | .request _ => held != 0 && semOkAux rest held
    | .sleepDelay => held == 0 && semOkAux rest held

/-- Discipline of a whole trace, starting with no slot held. -/
def semOk (events : List FetchEvent) : Bool :=
  semOkAux events 0

/-- Number of network requests in a trace. -/
def countRequests (events : List FetchEvent) : Nat :=
  events.countP fun e => match e with | .request _ => true | _ => false

/-- Number of inter-attempt delays in a trace. -/
def countSleeps (events : List FetchEvent) : Nat :=
  events.countP fun e => match e with | .sleepDelay => true | _ => false

/-- The retry triggers as the specification words them: a non-2xx status,
a timeout, or a connection error.  (Second definition for comparison with
the source's `attemptFails`, which triggers on any status other than
exactly 200.) -/
def spec_retry_trigger : AttemptOutcome → Bool
  | .response status _ => !(200 ≤ status && status < 300)
  | .timeoutErr => true
  | .connError => true

/-! ## `crawler.py` (top level): `ShuimuCrawler.download_image` (lines 203-270) -/

/-- Outcome of one image `session.get`: a 200 response with the number of
body bytes received and the optional `Content-Length` header, a non-200
status, or a raised `aiohttp.ClientError` / `asyncio.TimeoutError`. -/
inductive ImgOutcome where
  | ok (bytesReceived : Nat) (contentLength : Option Nat)
  | badStatus (code : Nat)
  | netError
  deriving DecidableEq, Repr

/-- Environment for `download_image`: the on-disk file test, the stdlib
`urllib.parse.urljoin`, the millisecond clock read by the fallback
filename, and the per-attempt network outcome. -/
structure ImgEnv where
  fileExists : String → Bool
  urljoin : String → String → String
  nowMs : Nat
  net : Nat → ImgOutcome

/-- `os.path.basename` on a URL-shaped path: the segment after the last
slash (empty when the path ends with a slash). -/
def basenameAux : List Char → List Char → List Char
  | cur, [] => cur
  | cur, c :: rest => if c == '/' then basenameAux [] rest else basenameAux (cur ++ [c]) rest

/-- `os.path.basename` on a URL-shaped path. -/
def basename (s : String) : String :=
  String.mk (basenameAux [] s.toList)

/-- The target-filename computation (lines 218-220): the URL basename, or
a timestamp name when it is empty or has no dot. -/
def computeImageFilename (env : ImgEnv) (url : String) : String :=
  let image_filename := basename url
  if image_filename = "" || !(pyContainsChar image_filename '.') then
    "image_" ++ toString env.nowMs ++ ".jpg"
  else image_filename

/-- The URL normalisation at line 211-212: absolute URLs pass through,
anything else is joined onto the site root. -/
def normalizeImgUrl (env : ImgEnv) (base_url image_url : String) : String :=
  if pyStartsWith image_url "http://" || pyStartsWith image_url "https://" then image_url
  else env.urljoin base_url image_url

/-- `os.path.relpath(path, base)` for the paths this code builds (the
image path always lives under the save directory). -/
def relpath (path base : String) : String :=
  if pyStartsWith path (base ++ "/") then
    String.mk (path.toList.drop (base.toList.length + 1))
  else path

/-- The `Content-Length` check at lines 241-243: a mismatch between the
header (when present — the header string is truthy) and the bytes
actually received raises a retryable `ClientError`. -/
def clMismatch : Option Nat → Nat → Bool
  | none, _ => false
  | some n, b => b != n

/-- The computed on-disk target for an image of a post, mirroring lines
214-222 (`images_dir = save_dir/images` from `__init__`, line 54). -/
def imageTargetPath (env : ImgEnv) (base_url save_dir post_id image_url : String) :
    String :=
  save_dir ++ "/images" ++ "/" ++ post_id ++ "/" ++
    computeImageFilename env (normalizeImgUrl env base_url image_url)

/-- Result of `download_image`: the returned relative path (`none` for a
failed download) and how many network requests were issued. -/
structure ImgResult where
  result : Option String
  netCalls : Nat
  deriving DecidableEq, Repr

/-- The `for attempt in range(max_retries)` loop of `download_image`
(lines 209-263), over the remaining attempt indices; `image_url` is
rebound by the normalisation, so it is threaded through.  The
`os.path.exists` short-circuit (lines 224-226) returns the relative path
before any network request. -/
def download_image_go (env : ImgEnv) (base_url save_dir images_dir post_id : String) :
    String → List Nat → ImgResult
  | _, [] => { result := none, netCalls := 0 }
  | image_url, attempt :: rest =>
    let url := normalizeImgUrl env base_url image_url
    let image_filename := computeImageFilename env url
    let image_path := images_dir ++ "/" ++ post_id ++ "/" ++ image_filename
    if env.fileExists image_path then
      { result := some (relpath image_path save_dir), netCalls := 0 }
    else
      let failOrRetry : ImgResult :=
        if rest.isEmpty then { result := none, netCalls := 1 }
        else
          let r := download_image_go env base_url save_dir images_dir post_id url rest
          { r with netCalls := r.netCalls + 1 }
      match env.net attempt with
      | .ok bytesReceived contentLength =>
        if clMismatch contentLength bytesReceived then failOrRetry
        else { result := some (relpath image_path save_dir), netCalls := 1 }
      | .badStatus _ => failOrRetry
      | .netError => failOrRetry

/-- `ShuimuCrawler.download_image`: `max_retries = 2` (line 205) and
`images_dir = save_dir/images` (line 54). -/
def download_image (env : ImgEnv) (base_url save_dir image_url post_id : String) :
    ImgResult :=
  download_image_go env base_url save_dir (save_dir ++ "/images") post_id image_url
    (List.range 2)

/-! ## `src/crawler.py`: network-call structure under the semaphore (C4) -/

/-- The kind of network call, per the specification's three fetch kinds. -/
inductive NetKind where
  | listing
  | detail
  | image
  deriving DecidableEq, Repr

/-- Primitive actions a task can take: semaphore acquire/release and the
start/end of a network call. -/
inductive TAct where
  | acquire
  | release
  | netStart (kind : NetKind)
  | netEnd (kind : NetKind)
  deriving DecidableEq, Repr

/-- The action sequence of one `_fetch_page` attempt (lines 118-126): the
request runs inside `async with self.semaphore`. -/
def fetch_attempt_net_prog (kind : NetKind) : List TAct :=
  [.acquire, .netStart kind, .netEnd kind, .release]

/-- The action sequence of one image download inside `_save_post` (lines
401-414): `session.get` is issued with the semaphore never acquired. -/
def save_post_image_net_prog : List TAct :=
  [.netStart .image, .netEnd .image]

/-- Cooperative interleaving of two tasks' action sequences. -/
inductive Interleave : List TAct → List TAct → List TAct → Prop where
  | nil : Interleave [] [] []
  | left {x : TAct} {xs ys zs : List TAct} :
      Interleave xs ys zs → Interleave (x :: xs) ys (x :: zs)
  | right {y : TAct} {xs ys zs : List TAct} :
      Interleave xs ys zs → Interleave xs (y :: ys) (y :: zs)

/-- A trace is a valid execution against a counting semaphore with
`sem` free slots and `active` running network calls: acquires block when
no slot is free, call starts/ends are balanced. -/
def traceOk : Nat → Nat → List TAct → Bool
  | _, active, [] => active == 0
  | sem, active, a :: rest =>
    match a with
    | .acquire => sem != 0 && traceOk (sem - 1) active rest
    | .release => traceOk (sem + 1) active rest
    | .netStart _ => traceOk sem (active + 1) rest
    | .netEnd _ => active != 0 && traceOk sem (active - 1) rest

/-- Peak number of simultaneously-active network calls along a trace. -/
def maxActive : Nat → List TAct → Nat
  | active, [] => active
  | active, a :: rest =>
    match a with
    | .netStart _ => Nat.max (active + 1) (maxActive (active + 1) rest)
    | .netEnd _ => Nat.max active (maxActive (active - 1) rest)
    | _ => Nat.max active (maxActive active rest)

/-- Whether every network call in a single task's own action sequence is
made while that task holds at least one semaphore slot. -/
def allNetUnderSem : Nat → List TAct → Bool
  | _, [] => true
  | held, a :: rest =>
    match a with
    | .acquire => allNetUnderSem (held + 1) rest
    | .release => allNetUnderSem (held - 1) rest
    | .netStart _ => held != 0 && allNetUnderSem held rest
    | .netEnd _ => allNetUnderSem held rest

/-- A schedule of one `_fetch_page` detail attempt concurrent with one
`_save_post` image download: the image request starts while the detail
request is still in flight. -/
def c4BadTrace : List TAct :=
  [.acquire, .netStart .detail, .netStart .image, .netEnd .image,
   .netEnd .detail, .release]

/-! ## Concrete test fixtures used by witnesses and counterexamples -/

/-- A board with no post records. -/
def c10Board : BoardState :=
  { name := "b", last_page := 1, posts := [] }

/-- A board holding one recorded post `p` in state `Pending`; the
identifier `q` has no record. -/
def c2Board : BoardState :=
  { name := "b", last_page := 1,
    posts :=
      [("p", { url := "u", title := "t", state := .pending, retry_count := 0,
               last_attempt := none, error_message := none,
               downloaded_images := [], failed_images := [] })] }

/-- A board holding a `Completed` post `p` and a `Failed` post `q` with
three recorded retries. -/
def c3Board : BoardState :=
  { name := "b", last_page := 1,
    posts :=
      [("p", { url := "u1", title := "t1", state := .completed, retry_count := 0,
               last_attempt := none, error_message := none,
               downloaded_images := [], failed_images := [] }),
       ("q", { url := "u2", title := "t2", state := .failed, retry_count := 3,
               last_attempt := none, error_message := none,
               downloaded_images := [], failed_images := [] })] }

/-- A crawl environment whose listing pages always parse to two rows, both
of whose posts the state store reports as already completed. -/
def c6EnvAllCompleted : CrawlEnv :=
  { fetch := fun _ => some "<html>",
    parse := fun _ => [{ title := "t1", url := "a" }, { title := "t2", url := "b" }],
    extractId := fun u => u,
    isCompleted := fun _ => true }

/-- A crawl environment whose listing fetch always fails. -/
def c6EnvFetchFail : CrawlEnv :=
  { fetch := fun _ => none,
    parse := fun _ => [],
    extractId := fun u => u,
    isCompleted := fun _ => false }

/-- A fetch environment in which every attempt yields an HTTP 201
response with a body that decodes under the first configured encoding. -/
def env201 : FetchEnv :=
  { outcome := fun _ => .response 201 [65],
    decode := fun _ _ => some "A",
    chardetect := fun _ => none,
    lenient := fun _ => "A" }

/-- An image environment in which the target of post `p1`'s image
`a.jpg` is already on disk and the network always errors. -/
def c9Env : ImgEnv :=
  { fileExists := fun p => p == "data/images/p1/a.jpg",
    urljoin := fun b u => b ++ u,
    nowMs := 0,
    net := fun _ => .netError }

/-! # Theorems -/

/-- C1 (code bug): take an extracted body holding placeholders 0, 1, 2
for the image URLs `[u0, u1, u2]`, with `u1`'s download failing and `u0`,
`u2` succeeding (so `process_post` passes the two surviving paths on).
`save_to_file` then substitutes `u2`'s image where placeholder 1 (the
failed image) stood, and the literal token `__IMG_PLACEHOLDER_2__`
remains in the saved document — it does not drop the failed placeholder
and resolve placeholder 2, and a literal token survives. -/
theorem c1_placeholder_shift :
    (save_to_file (fun _ => true) "T"
        "A __IMG_PLACEHOLDER_0__ B __IMG_PLACEHOLDER_1__ C __IMG_PLACEHOLDER_2__"
        (filterDownloaded
          [some "images/p/p0.jpg", none, some "images/p/p2.jpg"])).markdown =
      "# T\n\nA \n![图片1](images/p/p0.jpg)\n B \n![图片2](images/p/p2.jpg)\n C __IMG_PLACEHOLDER_2__" := by
  rfl

/-- C5 counterexample: on a concrete save, the operations performed are a
truncating open of the final path followed by one write — no rename at
all — and in the intermediate filesystem state between the two, the final
path holds an empty document although the intended document is
non-empty.  The write is therefore not a temp-file-plus-atomic-rename,
and a reader can observe a half-written document at the final path. -/
theorem c5_no_atomic_replace :
    (save_to_file (fun _ => true) "T" "hello" []).ops =
      [FsOp.openTrunc "T.md", FsOp.write "T.md" "# T\n\nhello"] ∧
    ((fsStates (fun _ => none)
        (save_to_file (fun _ => true) "T" "hello" []).ops).getD 1
      (fun _ => none)) "T.md" = some "" ∧
    (save_to_file (fun _ => true) "T" "hello" []).markdown ≠ "" := by
  refine ⟨rfl, rfl, by decide⟩

/-- C4 (code bug): a valid schedule against a semaphore of size `C = 1`
interleaves one semaphore-guarded `_fetch_page` detail attempt with one
`_save_post` image download and reaches 2 simultaneously-active network
calls; every network request of `_fetch_page` is made holding a slot,
while the image request of `_save_post` is made holding none. -/
theorem c4_semaphore_bypass :
    Interleave (fetch_attempt_net_prog .detail) save_post_image_net_prog c4BadTrace ∧
    traceOk 1 0 c4BadTrace = true ∧
    maxActive 0 c4BadTrace = 2 ∧
    allNetUnderSem 0 (fetch_attempt_net_prog .detail) = true ∧
    allNetUnderSem 0 save_post_image_net_prog = false := by
  refine ⟨?_, by decide, by decide, by decide, by decide⟩
  exact .left (.left (.right (.right (.left (.left .nil)))))

/-- C7 counterexample: a present-but-unparsable state file makes
`load_board_state` propagate the JSON parse error (the body has no
handler) instead of yielding an empty board state, and the loading loop
of `Crawler.__init__` then aborts before any later board is loaded, so
the corruption is not isolated to the one board. -/
theorem c7_corrupt_state_raises :
    load_board_state "a" (.corrupt "not json") = .error "JSONDecodeError" ∧
    load_board_state "a" (.corrupt "not json") ≠
      .ok { name := "a", last_page := 1, posts := [] } ∧
    crawler_init_load ["a", "b"]
        (fun b => if b = "a" then .corrupt "not json" else .missing) =
      .error "JSONDecodeError" := by
  refine ⟨rfl, fun h => Except.noConfusion h, rfl⟩

/-- C8 counterexample: every attempt yields HTTP 201 — a 2xx status that
triggers none of the claimed retry conditions (non-2xx, timeout,
connection error) — yet `_fetch_page` treats it as a failed attempt (its
test is `status == 200`) and returns `None` once the attempts are
exhausted. -/
theorem c8_status_201_fails :
    (fetch_page env201 2).1 = none ∧
    (∀ i, i < 2 → spec_retry_trigger (env201.outcome i) = false) := by
  refine ⟨rfl, by decide⟩

/-- C6 counterexample: with a max-page limit of 5 not yet reached, no
max-post limit, and a page-1 listing parsing to two summaries, both posts
being recorded as completed stops the whole board traversal
(`noNewTasks`); and a failing listing fetch also stops it
(`fetchFailed`).  Neither stop is among the claim's three conditions. -/
theorem c6_extra_stop_conditions :
    crawl_board_run c6EnvAllCompleted { max_pages := some 5, max_posts := none } 10 =
      some .noNewTasks ∧
    maxPagesExceeded { max_pages := some 5, max_posts := none } 1 = false ∧
    maxPostsReached { max_pages := some 5, max_posts := none } 0 = false ∧
    listingOf c6EnvAllCompleted 1 =
      some [{ title := "t1", url := "a" }, { title := "t2", url := "b" }] ∧
    crawl_board_run c6EnvFetchFail { max_pages := none, max_posts := none } 10 =
      some .fetchFailed := by
  refine ⟨rfl, rfl, rfl, rfl, rfl⟩

/-- C3 counterexample: `update_post_state` moves the `Completed` post `p`
to `Failed` (the new state is applied unconditionally, so `Completed` is
not terminal at the store level), and a transition on the `Failed` post
`q` carrying the empty-string error does not increment its retry count
(the code tests the error's truthiness, not its presence). -/
theorem c3_completed_not_terminal :
    (lookupPost (update_post_state c3Board "p" .failed (some "boom") "t").1.posts "p").map
        (fun post => post.state) = some .failed ∧
    retryCountOf (update_post_state c3Board "q" .failed (some "") "t").1 "q" = 3 := by
  refine ⟨rfl, rfl⟩

/-! ## Helper lemmas on the post dictionary -/

theorem lookupPost_setPost_self (posts : List (String × PostInfo)) (key : String)
    (v p : PostInfo) (h : lookupPost posts key = some p) :
    lookupPost (setPost posts key v) key = some v := by
  induction posts with
  | nil => simp [lookupPost] at h
  | cons kv rest ih =>
    obtain ⟨k, w⟩ := kv
    by_cases hk : k = key
    · simp [setPost, lookupPost, hk]
    · simp only [lookupPost, if_neg hk] at h
      simp [setPost, lookupPost, hk, ih h]

theorem lookupPost_setPost_ne (posts : List (String × PostInfo)) (key other : String)
    (v : PostInfo) (h : other ≠ key) :
    lookupPost (setPost posts key v) other = lookupPost posts other := by
  induction posts with
  | nil => simp [setPost]
  | cons kv rest ih =>
    obtain ⟨k, w⟩ := kv
    by_cases hk : k = key
    · subst hk
      have hko : ¬k = other := fun hko => h hko.symm
      simp [setPost, lookupPost, hko]
    · by_cases hko : k = other
      · simp [setPost, lookupPost, hk, hko, h]
      · simp [setPost, lookupPost, hk, hko, ih]

/-! ## C2: the eligibility check -/

theorem should_process_post_raises_of_record (board_state : BoardState)
    (post_id : String) (max_retries : Nat) (post : PostInfo)
    (h : lookupPost board_state.posts post_id = some post) :
    should_process_post board_state post_id max_retries =
      .error "AttributeError" := by
  simp [should_process_post, h]

theorem should_process_post_as_written_iff (board_state : BoardState)
    (post_id : String) (max_retries : Nat) :
    should_process_post_as_written board_state post_id max_retries = true ↔
      (lookupPost board_state.posts post_id = none ∨
        ∃ post, lookupPost board_state.posts post_id = some post ∧
          post.state ≠ PostState.completed ∧
          (¬(post.state = PostState.failed ∨ post.state = PostState.retryNeeded) ∨
            post.retry_count < max_retries)) := by
  cases h : lookupPost board_state.posts post_id with
  | none => simp [should_process_post_as_written, h]
  | some post =>
    cases hs : post.state <;> simp [should_process_post_as_written, h, hs]

/-- C2 (code bug): `should_process_post` returns `true` for an identifier
with no record, but for an identifier that has a record it raises
`AttributeError` instead of returning the claimed boolean verdict,
because the `PostState` dataclass defined at `src/state.py` line 39
shadows the enum of line 11 and the member lookup at line 158 fails on
it.  The lines themselves spell out exactly the claimed predicate under
the enum reading (`should_process_post_as_written`, which returns `true`
on the same input) — the shadowing breaks them at runtime. -/
theorem c2_should_process_post_raises :
    should_process_post c2Board "q" 3 = .ok true ∧
    should_process_post c2Board "p" 3 = .error "AttributeError" ∧
    should_process_post_as_written c2Board "p" 3 = true := by
  refine ⟨rfl, rfl, rfl⟩

/-! ## C10: mutating operations on an absent post identifier -/

/-- C10: called with a post identifier that has no record,
`update_post_state`, `add_downloaded_image` and `add_failed_image` all
return normally, leave the board state untouched, and never call
`save_board_state` (the persisted file is not rewritten). -/
theorem c10_absent_id_is_noop (board_state : BoardState) (post_id : String)
    (state : PostState) (error : Option String) (now image_path image_url : String)
    (h : lookupPost board_state.posts post_id = none) :
    update_post_state board_state post_id state error now = (board_state, false) ∧
    add_downloaded_image board_state post_id image_path = (board_state, false) ∧
    add_failed_image board_state post_id image_url = (board_state, false) := by
  refine ⟨?_, ?_, ?_⟩ <;>
    simp [update_post_state, add_downloaded_image, add_failed_image, h]

/-- Witness for C10 at a concrete empty board. -/
theorem c10_absent_id_is_noop_witness :
    lookupPost c10Board.posts "p" = none ∧
    (update_post_state c10Board "p" .failed (some "e") "t" = (c10Board, false) ∧
      add_downloaded_image c10Board "p" "img.jpg" = (c10Board, false) ∧
      add_failed_image c10Board "p" "http://x/i.jpg" = (c10Board, false)) :=
  ⟨rfl, c10_absent_id_is_noop c10Board "p" .failed (some "e") "t" "img.jpg"
    "http://x/i.jpg" rfl⟩

/-! ## C5 (amended): how the document write actually happens -/

/-- C5 (amended): `save_to_file` writes the document directly at its
final path — a truncating open followed by a single write, with no
temporary path and no rename — so in the intermediate state between the
open and the write, any reader of the final path sees an empty
(half-written) document. -/
theorem c5_direct_write (fileExists : String → Bool) (title content : String)
    (image_paths : List String) (fs : String → Option String) :
    (save_to_file fileExists title content image_paths).ops =
      [FsOp.openTrunc (save_to_file fileExists title content image_paths).filename,
       FsOp.write (save_to_file fileExists title content image_paths).filename
         (save_to_file fileExists title content image_paths).markdown] ∧
    ((fsStates fs (save_to_file fileExists title content image_paths).ops).getD 1 fs)
        ((save_to_file fileExists title content image_paths).filename) = some "" := by
  refine ⟨rfl, ?_⟩
  simp [save_to_file, fsStates, applyFsOp]

/-! ## C7 (amended): loading persisted board state -/

/-- C7 (amended): a missing state file yields a fresh empty board state,
but a present-and-unparsable one makes `load_board_state` propagate the
JSON parse error; `Crawler.__init__` loads every board's state in
sequence with no handler, so its loading loop completes exactly when
every board's file loads without raising — one corrupt file aborts the
initialisation for all boards rather than being isolated. -/
theorem c7_missing_empty_corrupt_raises (board_name raw : String)
    (boards : List String) (files : String → StateFile) :
    load_board_state board_name .missing =
      .ok { name := board_name, last_page := 1, posts := [] } ∧
    load_board_state board_name (.corrupt raw) = .error "JSONDecodeError" ∧
    (crawler_init_load boards files = .ok () ↔
      ∀ b ∈ boards, ∃ st, load_board_state b (files b) = .ok st) := by
  refine ⟨rfl, rfl, ?_⟩
  induction boards with
  | nil => simp [crawler_init_load]
  | cons b rest ih =>
    simp only [crawler_init_load]
    cases h : load_board_state b (files b) with
    | error e => simp [h]
    | ok st => simp [h, ih]

/-- Witness for C7 (amended) at a concrete board name. -/
theorem c7_missing_empty_corrupt_raises_witness :
    load_board_state "b" StateFile.missing =
      .ok { name := "b", last_page := 1, posts := [] } :=
  (c7_missing_empty_corrupt_raises "b" "x" [] (fun _ => .missing)).1

/-! ## C3 (amended): retry-count monotonicity -/

theorem update_post_state_lookup_self (bs : BoardState) (pid : String)
    (st : PostState) (err : Option String) (now : String) (post : PostInfo)
    (h : lookupPost bs.posts pid = some post) :
    lookupPost (update_post_state bs pid st err now).1.posts pid =
      some (updatedPost post st err now) := by
  unfold update_post_state
  simp only [h]
  exact lookupPost_setPost_self bs.posts pid _ post h

theorem update_post_state_lookup_ne (bs : BoardState) (pid : String)
    (st : PostState) (err : Option String) (now : String) (other : String)
    (h : other ≠ pid) :
    lookupPost (update_post_state bs pid st err now).1.posts other =
      lookupPost bs.posts other := by
  unfold update_post_state
  cases hl : lookupPost bs.posts pid with
  | none => rfl
  | some post => simp [hl, lookupPost_setPost_ne bs.posts pid other _ h]

theorem update_retry_count_eq (bs : BoardState) (pid : String) (st : PostState)
    (err : Option String) (now : String) (post : PostInfo)
    (h : lookupPost bs.posts pid = some post) :
    retryCountOf (update_post_state bs pid st err now).1 pid =
      post.retry_count + (if pyTruthyStr err then 1 else 0) := by
  unfold retryCountOf
  rw [update_post_state_lookup_self bs pid st err now post h]
  unfold updatedPost
  cases hT : pyTruthyStr err <;> simp [hT]

theorem add_downloaded_image_retryCount (bs : BoardState) (pid p other : String) :
    retryCountOf (add_downloaded_image bs pid p).1 other = retryCountOf bs other := by
  unfold add_downloaded_image retryCountOf
  cases hl : lookupPost bs.posts pid with
  | none => rfl
  | some post =>
    by_cases hc : p ∈ post.downloaded_images
    · simp [hl, hc]
    · by_cases ho : other = pid
      · subst ho
        simp [hl, hc, lookupPost_setPost_self bs.posts other _ post hl]
      · simp [hl, hc, lookupPost_setPost_ne bs.posts pid other _ ho]

theorem add_failed_image_retryCount (bs : BoardState) (pid u other : String) :
    retryCountOf (add_failed_image bs pid u).1 other = retryCountOf bs other := by
  unfold add_failed_image retryCountOf
  cases hl : lookupPost bs.posts pid with
  | none => rfl
  | some post =>
    by_cases hc : u ∈ post.failed_images
    · simp [hl, hc]
    · by_cases ho : other = pid
      · subst ho
        simp [hl, hc, lookupPost_setPost_self bs.posts other _ post hl]
      · simp [hl, hc, lookupPost_setPost_ne bs.posts pid other _ ho]

theorem retryCountOf_applyOp_le (bs : BoardState) (op : StoreOp) (pid : String) :
    retryCountOf bs pid ≤ retryCountOf (applyOp bs op) pid := by
  cases op with
  | update pid' st err now =>
    by_cases hpid : pid = pid'
    · subst hpid
      cases hl : lookupPost bs.posts pid with
      | none => simp [applyOp, update_post_state, hl]
      | some post =>
        have heq := update_retry_count_eq bs pid st err now post hl
        simp only [applyOp]
        rw [heq]
        unfold retryCountOf
        rw [hl]
        cases pyTruthyStr err <;> simp
    · simp only [applyOp]
      unfold retryCountOf
      rw [update_post_state_lookup_ne bs pid' st err now pid hpid]
  | addImage pid' p =>
    simp only [applyOp]
    rw [add_downloaded_image_retryCount]
  | addFailed pid' u =>
    simp only [applyOp]
    rw [add_failed_image_retryCount]

theorem retryCountOf_applyOps_le (bs : BoardState) (ops : List StoreOp) (pid : String) :
    retryCountOf bs pid ≤ retryCountOf (applyOps bs ops) pid := by
  induction ops generalizing bs with
  | nil => exact Nat.le_refl _
  | cons op rest ih =>
    exact Nat.le_trans (retryCountOf_applyOp_le bs op pid) (ih (applyOp bs op))

/-- C3 (amended): across every sequence of state-store mutations the
recorded `retry_count` of any post never decreases, and one
`update_post_state` call on an existing record increments it by exactly
one when the error argument is truthy (a non-`None`, non-empty string)
and leaves it unchanged otherwise.  (The `Completed`-is-terminal half of
the original claim fails: the store applies the new state
unconditionally, see the counterexample.) -/
theorem c3_retry_count_monotone :
    (∀ (board_state : BoardState) (ops : List StoreOp) (post_id : String),
        retryCountOf board_state post_id ≤
          retryCountOf (applyOps board_state ops) post_id) ∧
    (∀ (board_state : BoardState) (post_id : String) (state : PostState)
        (error : Option String) (now : String) (post : PostInfo),
        lookupPost board_state.posts post_id = some post →
        retryCountOf (update_post_state board_state post_id state error now).1 post_id =
          post.retry_count + (if pyTruthyStr error then 1 else 0)) :=
  ⟨fun bs ops pid => retryCountOf_applyOps_le bs ops pid,
   fun bs pid st err now post h => update_retry_count_eq bs pid st err now post h⟩

/-- Witness for C3 (amended) on the concrete fixture board. -/
theorem c3_retry_count_monotone_witness :
    retryCountOf c3Board "q" ≤
      retryCountOf (applyOps c3Board [StoreOp.update "q" .failed (some "x") "t"]) "q" :=
  c3_retry_count_monotone.1 c3Board [StoreOp.update "q" .failed (some "x") "t"] "q"

/-! ## C8 (amended): the `_fetch_page` retry loop -/

theorem find?_append_some {α : Type} (l1 l2 : List α) (p : α → Bool) (a : α)
    (h : l1.find? p = some a) : (l1 ++ l2).find? p = some a := by
  induction l1 with
  | nil => simp [List.find?] at h
  | cons x rest ih =>
    cases hx : p x with
    | true =>
      rw [List.find?_cons_of_pos _ hx] at h
      rw [List.cons_append, List.find?_cons_of_pos _ hx]
      exact h
    | false =>
      rw [List.find?_cons_of_neg _ (by simp [hx])] at h
      rw [List.cons_append, List.find?_cons_of_neg _ (by simp [hx])]
      exact ih h

theorem find?_append_none {α : Type} (l1 l2 : List α) (p : α → Bool)
    (h : l1.find? p = none) : (l1 ++ l2).find? p = l2.find? p := by
  induction l1 with
  | nil => simp
  | cons x rest ih =>
    cases hx : p x with
    | true => rw [List.find?_cons_of_pos _ hx] at h; exact absurd h (by simp)
    | false =>
      rw [List.find?_cons_of_neg _ (by simp [hx])] at h
      rw [List.cons_append, List.find?_cons_of_neg _ (by simp [hx])]
      exact ih h

theorem find?_range_first (p : Nat → Bool) (m i : Nat) (him : i < m)
    (hbefore : ∀ j, j < i → p j = false) (hi : p i = true) :
    (List.range m).find? p = some i := by
  induction m with
  | zero => omega
  | succ n ih =>
    rw [List.range_succ]
    rcases Nat.lt_or_ge i n with hin | hin
    · exact find?_append_some _ _ _ _ (ih hin)
    · have hieq : i = n := by omega
      subst hieq
      have hnone : (List.range i).find? p = none := by
        rw [List.find?_eq_none]
        intro x hx
        simp [hbefore x (List.mem_range.mp hx)]
      rw [find?_append_none _ _ _ hnone]
      simp [List.find?, hi]

theorem fetch_attempts_result (env : FetchEnv) (l : List Nat) :
    (fetch_attempts env l).1 =
      (l.find? fun i => !attemptFails (env.outcome i)).map
        (fun i => decodeContent env (bodyOf (env.outcome i))) := by
  induction l with
  | nil => rfl
  | cons i rest ih =>
    by_cases hf : attemptFails (env.outcome i) = true
    · simp [fetch_attempts, hf, List.find?, ih]
    · simp [fetch_attempts, hf, List.find?,
        Bool.not_eq_true (attemptFails (env.outcome i)) ▸ hf]

theorem fetch_attempts_cons_fail (env : FetchEnv) (i : Nat) (rest : List Nat)
    (hf : attemptFails (env.outcome i) = true) :
    fetch_attempts env (i :: rest) =
      ((fetch_attempts env rest).1,
        [FetchEvent.acquire, FetchEvent.request i, FetchEvent.release] ++
          (if rest.isEmpty then [] else [FetchEvent.sleepDelay]) ++
          (fetch_attempts env rest).2) := by
  simp [fetch_attempts, hf]

theorem fetch_attempts_semOk (env : FetchEnv) (l : List Nat) :
    semOk (fetch_attempts env l).2 = true := by
  induction l with
  | nil => rfl
  | cons i rest ih =>
    by_cases hf : attemptFails (env.outcome i) = true
    · rw [fetch_attempts_cons_fail env i rest hf]
      cases rest with
      | nil => simp [semOk, semOkAux, fetch_attempts]
      | cons j tl =>
        unfold semOk at ih ⊢
        simpa [semOkAux, List.isEmpty_cons] using ih
    · simp [fetch_attempts, hf, semOk, semOkAux]

theorem fetch_attempts_allfail_counts (env : FetchEnv) (l : List Nat)
    (h : ∀ i ∈ l, attemptFails (env.outcome i) = true) :
    countRequests (fetch_attempts env l).2 = l.length ∧
    countSleeps (fetch_attempts env l).2 = l.length - 1 := by
  induction l with
  | nil => exact ⟨rfl, rfl⟩
  | cons i rest ih =>
    have hi : attemptFails (env.outcome i) = true := h i (by simp)
    have hrest : ∀ j ∈ rest, attemptFails (env.outcome j) = true :=
      fun j hj => h j (by simp [hj])
    obtain ⟨h1, h2⟩ := ih hrest
    cases rest with
    | nil =>
      simp [fetch_attempts, hi, countRequests, countSleeps, List.countP_cons]
    | cons j tl =>
      rw [fetch_attempts_cons_fail env i (j :: tl) hi]
      refine ⟨?_, ?_⟩ <;>
      · simp [countRequests, countSleeps, List.countP_cons, List.countP_append,
          List.isEmpty_cons] at h1 h2 ⊢
        omega

/-- C8 (amended): `_fetch_page` treats an attempt as failed exactly when
the response status differs from 200 or a timeout/connection error was
raised.  It returns `None` precisely when every one of its `maxRetries`
attempts failed; its event trace keeps the semaphore discipline — every
request under a held slot, the slot released before every inter-attempt
delay, nothing held at the end; on an all-failing run it issues exactly
`maxRetries` requests with `maxRetries - 1` delays between them; and the
first non-failing (status-200) attempt makes it return the decoded body,
decoding never failing (the lenient fallback is total). -/
theorem c8_fetch_page_retry_contract (env : FetchEnv) (max_retries : Nat) :
    ((fetch_page env max_retries).1 = none ↔
      ∀ i < max_retries, attemptFails (env.outcome i) = true) ∧
    semOk (fetch_page env max_retries).2 = true ∧
    ((∀ i < max_retries, attemptFails (env.outcome i) = true) →
      countRequests (fetch_page env max_retries).2 = max_retries ∧
      countSleeps (fetch_page env max_retries).2 = max_retries - 1) ∧
    (∀ i, i < max_retries → (∀ j, j < i → attemptFails (env.outcome j) = true) →
      attemptFails (env.outcome i) = false →
      (fetch_page env max_retries).1 =
        some (decodeContent env (bodyOf (env.outcome i)))) := by
  refine ⟨?_, ?_, ?_, ?_⟩
  · rw [fetch_page, fetch_attempts_result]
    simp [List.find?_eq_none, List.mem_range]
  · exact fetch_attempts_semOk env (List.range max_retries)
  · intro hall
    refine fetch_attempts_allfail_counts env (List.range max_retries) ?_ |>.imp
      (by simp [fetch_page]) (by simp [fetch_page])
    intro i hi
    exact hall i (List.mem_range.mp hi)
  · intro i him hbefore hfi
    rw [fetch_page, fetch_attempts_result]
    rw [find?_range_first _ max_retries i him
      (fun j hj => by simp [hbefore j hj]) (by simp [hfi])]
    rfl

/-- Witness for C8 (amended): the all-201 environment exhausts both
attempts and returns `None`. -/
theorem c8_fetch_page_retry_contract_witness :
    (fetch_page env201 2).1 = none :=
  (c8_fetch_page_retry_contract env201 2).1.mpr (by decide)

/-! ## C6 (amended): the stop conditions of `crawl_board` -/

theorem crawl_board_stop_step (env : CrawlEnv) (limits : BoardLimits) :
    ∀ (fuel page count : Nat) (r : StopReason),
      crawl_board env limits fuel page count = some r →
      ∃ p c, page ≤ p ∧ crawl_board_step env limits p c = .stop r := by
  intro fuel
  induction fuel with
  | zero => intro page count r h; simp [crawl_board] at h
  | succ n ih =>
    intro page count r h
    cases hs : crawl_board_step env limits page count with
    | stop r2 =>
      simp only [crawl_board, hs, Option.some.injEq] at h
      exact ⟨page, count, Nat.le_refl _, h ▸ hs⟩
    | next c =>
      simp only [crawl_board, hs] at h
      obtain ⟨p, c2, hp, hstep⟩ := ih (page + 1) c r h
      exact ⟨p, c2, by omega, hstep⟩

/-- C6 (amended): board traversal starts at page 1 and a finished
traversal always ends at a page where the loop body produced a stop; one
loop iteration stops for exactly one of five reasons, tested in source
order — (a) the truthy max-page limit is exceeded, (b) the truthy
max-post limit is reached, (c) the listing fetch fails or the page is
falsy, (d) the fetched listing parses to zero summaries, (e) at least
one summary was parsed but no task was dispatched (every post was
skipped as unidentifiable or already completed) — and otherwise advances
with the updated post count. -/
theorem c6_stop_characterisation (env : CrawlEnv) (limits : BoardLimits) :
    (∀ (fuel : Nat) (r : StopReason),
        crawl_board_run env limits fuel = some r →
        ∃ page count, 1 ≤ page ∧ crawl_board_step env limits page count = .stop r) ∧
    (∀ page count,
      ((crawl_board_step env limits page count = .stop .maxPages) ↔
        maxPagesExceeded limits page = true) ∧
      ((crawl_board_step env limits page count = .stop .maxPosts) ↔
        (maxPagesExceeded limits page = false ∧ maxPostsReached limits count = true)) ∧
      ((crawl_board_step env limits page count = .stop .fetchFailed) ↔
        (maxPagesExceeded limits page = false ∧ maxPostsReached limits count = false ∧
          listingOf env page = none)) ∧
      ((crawl_board_step env limits page count = .stop .noPosts) ↔
        (maxPagesExceeded limits page = false ∧ maxPostsReached limits count = false ∧
          listingOf env page = some [])) ∧
      ((crawl_board_step env limits page count = .stop .noNewTasks) ↔
        (maxPagesExceeded limits page = false ∧ maxPostsReached limits count = false ∧
          ∃ posts, listingOf env page = some posts ∧ posts ≠ [] ∧
            (dispatchPosts env limits posts count).1 = 0)) ∧
      (∀ c, crawl_board_step env limits page count = .next c →
        maxPagesExceeded limits page = false ∧ maxPostsReached limits count = false ∧
        ∃ posts, listingOf env page = some posts ∧ posts ≠ [] ∧
          (dispatchPosts env limits posts count).1 ≠ 0 ∧
          c = (dispatchPosts env limits posts count).2)) := by
  constructor
  · intro fuel r h
    exact crawl_board_stop_step env limits fuel 1 0 r h
  · intro page count
    by_cases hA : maxPagesExceeded limits page = true
    · simp [crawl_board_step, hA]
    · have hA2 : maxPagesExceeded limits page = false := by
        simpa using hA
      by_cases hB : maxPostsReached limits count = true
      · simp [crawl_board_step, hA2, hB]
      · have hB2 : maxPostsReached limits count = false := by
          simpa using hB
        cases hL : listingOf env page with
        | none => simp [crawl_board_step, hA2, hB2, hL]
        | some posts =>
          cases posts with
          | nil => simp [crawl_board_step, hA2, hB2, hL]
          | cons p rest =>
            by_cases hT : (dispatchPosts env limits (p :: rest) count).1 = 0
            · simp [crawl_board_step, hA2, hB2, hL, hT]
            · simp [crawl_board_step, hA2, hB2, hL, hT, eq_comm]
              omega

/-- Witness for C6 (amended): the failing-fetch fixture stops, and it
stops at a page whose step is a `fetchFailed` stop. -/
theorem c6_stop_characterisation_witness :
    ∃ page count, 1 ≤ page ∧
      crawl_board_step c6EnvFetchFail { max_pages := none, max_posts := none }
        page count = .stop .fetchFailed :=
  (c6_stop_characterisation c6EnvFetchFail
    { max_pages := none, max_posts := none }).1 10 .fetchFailed rfl

/-! ## C9: the idempotent image short-circuit -/

theorem download_image_go_exists (env : ImgEnv)
    (base_url save_dir images_dir post_id image_url : String)
    (attempt : Nat) (rest : List Nat)
    (h : env.fileExists (images_dir ++ "/" ++ post_id ++ "/" ++
        computeImageFilename env (normalizeImgUrl env base_url image_url)) = true) :
    download_image_go env base_url save_dir images_dir post_id image_url
        (attempt :: rest) =
      { result := some (relpath (images_dir ++ "/" ++ post_id ++ "/" ++
          computeImageFilename env (normalizeImgUrl env base_url image_url)) save_dir),
        netCalls := 0 } := by
  simp [download_image_go, h]

/-- C9: when the computed target file of `(post_id, image_url)` already
exists on disk, `download_image` returns its path relative to the save
directory and issues no network request at all, so re-running it after a
crash yields the same path with no redundant download. -/
theorem c9_existing_image_short_circuit (env : ImgEnv)
    (base_url save_dir image_url post_id : String)
    (h : env.fileExists (imageTargetPath env base_url save_dir post_id image_url) = true) :
    download_image env base_url save_dir image_url post_id =
      { result := some (relpath
          (imageTargetPath env base_url save_dir post_id image_url) save_dir),
        netCalls := 0 } := by
  unfold imageTargetPath at h
  unfold download_image imageTargetPath
  exact download_image_go_exists env base_url save_dir (save_dir ++ "/images")
    post_id image_url 0 [1] h

/-- Witness for C9: post `p1`'s image `a.jpg` is already on disk, so the
download returns `images/p1/a.jpg` with zero network calls. -/
theorem c9_existing_image_short_circuit_witness :
    c9Env.fileExists (imageTargetPath c9Env "https://www.newsmth.net" "data" "p1"
        "https://img.example/x/a.jpg") = true ∧
    download_image c9Env "https://www.newsmth.net" "data"
        "https://img.example/x/a.jpg" "p1" =
      { result := some "images/p1/a.jpg", netCalls := 0 } := by
  refine ⟨by decide, ?_⟩
  exact (c9_existing_image_short_circuit c9Env "https://www.newsmth.net" "data"
    "https://img.example/x/a.jpg" "p1" (by decide)).trans (by decide)

end Shuimu
